import Mathlib

/-!
Verification of core behaviors of the lollms-vscode-extension repository.

The TypeScript sources are shallowly embedded: JS strings are Lean `String`
(or `List Char` where character-level reasoning is needed, since a JS string
is a sequence of code units), JS `Map`/`Set` become association lists /
lists without duplicates, fallible operations become `Except`, and the
asynchronous handlers become explicit state-passing functions.
-/

set_option maxHeartbeats 1000000
set_option maxRecDepth 100000

namespace LollmsVsc

/-! ## Chat data model (src/chatViewProvider.ts) -/

/-- ChatMessage.sender : 'user' | 'assistant' | 'system'. -/
inductive Sender
  | user
  | assistant
  | system
deriving DecidableEq, Repr

/-- ChatMessage.type : 'text' | 'code' | 'error' | 'info'. -/
inductive MsgKind
  | text
  | code
  | error
  | info
deriving DecidableEq, Repr

/-- Embeds interface ChatMessage (the `type` field is named `kind` here). -/
structure ChatMessage where
  sender : Sender
  content : String
  kind : MsgKind
  rawContent : Option String := none
  timestamp : Nat
deriving DecidableEq, Repr

/-- Embeds interface Discussion. -/
structure Discussion where
  id : String
  title : String
  createdAt : Nat
  messages : List ChatMessage
deriving DecidableEq, Repr

/-- Lookup in an association list, modelling JS Map.get. -/
def assocFind {β : Type} : List (String × β) → String → Option β
  | [], _ => none
  | (k₀, v) :: rest, k => if k₀ = k then some v else assocFind rest k

/-- Insert/replace in an association list, modelling JS Map.set
(replaces the binding when the key is present, otherwise appends). -/
def assocSet {β : Type} : List (String × β) → String → β → List (String × β)
  | [], k, v => [(k, v)]
  | (k₀, v₀) :: rest, k, v =>
    if k₀ = k then (k, v) :: rest else (k₀, v₀) :: assocSet rest k v

/-- Embeds `_addMessageToHistory`'s mutation of the message array:
`if (messages.length > 200) messages.shift(); messages.push(message)`. -/
def addMessageToHistory (messages : List ChatMessage) (message : ChatMessage) :
    List ChatMessage :=
  (if messages.length > 200 then messages.tail else messages) ++ [message]

/-- Appending a whole batch of messages one by one. -/
def appendAll (messages incoming : List ChatMessage) : List ChatMessage :=
  incoming.foldl addMessageToHistory messages

/-- A concrete test message (content empty, timestamp used as identity). -/
def mkTestMsg (i : Nat) : ChatMessage :=
  { sender := Sender.user, content := "", kind := MsgKind.text, timestamp := i }

/-- The batch of test messages number 0 .. n-1 (message #1 is `mkTestMsg 0`). -/
def msgsN (n : Nat) : List ChatMessage := (List.range n).map mkTestMsg

/-! ## Chat view provider state and the send-message guard -/

/-- The provider state relevant to `handleSendMessage`
(`_isGenerating`, `_lollmsClient` presence, `_activeDiscussionId`,
`_discussions`). -/
structure ProviderState where
  isGenerating : Bool
  hasClient : Bool
  activeDiscussionId : Option String
  discussions : List (String × Discussion)
deriving DecidableEq, Repr

/-- A system message as built by `_addSystemMessage`. -/
def sysMessage (content : String) (k : MsgKind) (ts : Nat) : ChatMessage :=
  { sender := Sender.system, content := content, kind := k, timestamp := ts }

/-- Embeds `_addMessageToHistory` at the provider level: appends to the
active discussion when one is set and present in the map, otherwise
changes nothing. -/
def addMessageToActive (s : ProviderState) (m : ChatMessage) : ProviderState :=
  match s.activeDiscussionId with
  | none => s
  | some did =>
    match assocFind s.discussions did with
    | none => s
    | some d =>
      { s with
        discussions :=
          assocSet s.discussions did
            { d with messages := addMessageToHistory d.messages m } }

/-- How the synchronous opening of `handleSendMessage` ends. -/
inductive SendOutcome
  | ignoredEmpty
  | rejectedBusy
  | rejectedNoClient
  | needsNewDiscussion
  | proceeded
deriving DecidableEq, Repr

/-- Character-level model of trimming trailing whitespace (JS trimEnd). -/
def trimEndChars (s : List Char) : List Char :=
  (s.reverse.dropWhile Char.isWhitespace).reverse

/-- Character-level model of JS String.prototype.trim. -/
def trimChars (s : List Char) : List Char :=
  trimEndChars (s.dropWhile Char.isWhitespace)

/-- JS `s.trim()` on a Lean `String`. -/
def jsTrim (s : String) : String := String.mk (trimChars s.data)

/-- Embeds the synchronous guard sequence at the top of `handleSendMessage`
(src/chatViewProvider.ts lines 365-388), up to the point where the request
proceeds to building the context (the asynchronous generation itself, and
the `startNewDiscussion` repair path, are outside this step function). -/
def handleSendMessageGuard (s : ProviderState) (text : String) (ts : Nat) :
    ProviderState × SendOutcome :=
  if (jsTrim text).data.length = 0 then (s, SendOutcome.ignoredEmpty)
  else if s.isGenerating then
    (addMessageToActive s (sysMessage "Please wait..." MsgKind.error ts),
     SendOutcome.rejectedBusy)
  else if !s.hasClient then
    (addMessageToActive s (sysMessage "Client not configured." MsgKind.error ts),
     SendOutcome.rejectedNoClient)
  else
    match s.activeDiscussionId with
    | none =>
      (addMessageToActive s
         (sysMessage "No active discussion. Starting new one." MsgKind.info ts),
       SendOutcome.needsNewDiscussion)
    | some did =>
      match assocFind s.discussions did with
      | none =>
        (addMessageToActive s
           (sysMessage "No active discussion. Starting new one." MsgKind.info ts),
         SendOutcome.needsNewDiscussion)
      | some _ =>
        let s1 := { s with isGenerating := true }
        (addMessageToActive s1
           { sender := Sender.user, content := text, kind := MsgKind.text,
             timestamp := ts },
         SendOutcome.proceeded)

/-! ## The `lollms.generateWithContext` command handler (src/extension.ts) -/

/-- How the decision sequence of the `lollms.generateWithContext`
command handler ends. -/
inductive CtxGenOutcome
  | noContextFiles
  | cancelledInput
  | noClient
  | cancelledSize
  | networkCall
deriving DecidableEq, Repr

/-- Embeds the decision sequence of the `lollms.generateWithContext`
command handler (src/extension.ts lines 191-240) up to the
`client.generate` network call: an empty context set, a dismissed or empty
instruction input (JS truthiness of the `showInputBox` result), an
unavailable client, and a declined size confirmation each abort; otherwise
the handler proceeds to the network call. The chat view's in-flight flag is
passed in so that theorems can speak about it, but — exactly as in the
source, where the `_isGenerating` flag is private to the chat view and this
handler never consults any in-flight flag — no branch depends on it. The
cancellation token is not modelled (never triggered here). -/
def generateWithContextGuard (chatIsGenerating : Bool)
    (contextUris : List String) (userInstruction : Option String)
    (clientAvailable : Bool) (sizeConfirmed : Bool) : CtxGenOutcome :=
  if contextUris.length = 0 then CtxGenOutcome.noContextFiles
  else
    match userInstruction with
    | none => CtxGenOutcome.cancelledInput
    | some instruction =>
      if instruction = "" then CtxGenOutcome.cancelledInput
      else if !clientAvailable then CtxGenOutcome.noClient
      else if !sizeConfirmed then CtxGenOutcome.cancelledSize
      else CtxGenOutcome.networkCall

/-! ## Discussion identifiers (src/chatViewProvider.ts `_generateNewDiscussionId`) -/

/-- The character for a single decimal digit, as produced by JS number
formatting. -/
def natDigitChar (n : Nat) : Char := Char.ofNat (48 + n)

/-- Decimal rendering of a natural number, fuel-indexed so that it computes
structurally (the fuel is always sufficient when it exceeds the number). -/
def natToCharsAux : Nat → Nat → List Char
  | 0, _ => []
  | fuel + 1, n =>
    if n < 10 then [natDigitChar n]
    else natToCharsAux fuel (n / 10) ++ [natDigitChar (n % 10)]

/-- Decimal rendering of a natural number, as JS `String(n)` /
`n.toString()` produces for a non-negative integer. -/
def natToChars (n : Nat) : List Char := natToCharsAux (n + 1) n

/-- Reads a digit string back into a number (used to invert the rendering). -/
def charsToNatAux (a : Nat) : List Char → Nat
  | [] => a
  | c :: cs => charsToNatAux (a * 10 + (c.toNat - 48)) cs

/-- JS `String(n).padStart(2, '0')`. -/
def pad2 (n : Nat) : List Char :=
  if n < 10 then '0' :: natToChars n else natToChars n

/-- JS `String(n).padStart(3, '0')`. -/
def pad3 (n : Nat) : List Char :=
  if n < 10 then '0' :: '0' :: natToChars n
  else if n < 100 then '0' :: natToChars n
  else natToChars n

/-- The components of a JS `Date` observed by `_generateNewDiscussionId`
(`month` is the 0-based value returned by `getMonth()`). -/
structure JsDate where
  year : Nat
  month : Nat
  day : Nat
  hour : Nat
  minute : Nat
  second : Nat
  ms : Nat
deriving DecidableEq, Repr

/-- Real-world field ranges of a JS `Date` with a four-digit year. -/
def validJsDate (d : JsDate) : Prop :=
  1000 ≤ d.year ∧ d.year ≤ 9999 ∧ d.month ≤ 11 ∧ d.day ≤ 31 ∧
    d.hour ≤ 23 ∧ d.minute ≤ 59 ∧ d.second ≤ 59 ∧ d.ms ≤ 999

instance (d : JsDate) : Decidable (validJsDate d) := by
  unfold validJsDate; infer_instance

/-- Embeds `_generateNewDiscussionId`: the id is
`chat_YYYYMMDD_HHMMSS_ms`, built purely from the current wall-clock time. -/
def generateNewDiscussionId (d : JsDate) : String :=
  String.mk
    ("chat_".data ++ (natToChars d.year ++ (pad2 (d.month + 1) ++ (pad2 d.day ++
      ("_".data ++ (pad2 d.hour ++ (pad2 d.minute ++ (pad2 d.second ++
        ("_".data ++ pad3 d.ms)))))))))

/-- Embeds the record-creation core of `startNewDiscussion`: allocate the id
from the wall clock, build an empty Discussion, and `Map.set` it (the
persistence side effects and the webview update are not modelled; `localeStr`
stands for `new Date(now).toLocaleString()`). -/
def startNewDiscussionModel (discussions : List (String × Discussion))
    (d : JsDate) (nowMs : Nat) (localeStr : String) :
    List (String × Discussion) × String :=
  let newId := generateNewDiscussionId d
  (assocSet discussions newId
     { id := newId, title := "Discussion from " ++ localeStr,
       createdAt := nowMs, messages := [] },
   newId)

/-! ## Context assembler (src/contextManager.ts) -/

/-- Relevant cases of `vscode.FileType`. -/
inductive VFileType
  | file
  | directory
  | symlink
  | unknown
deriving DecidableEq, Repr

/-- Result of `vscode.workspace.fs.stat`. -/
structure FileStat where
  ftype : VFileType
  size : Nat
deriving DecidableEq, Repr

instance {ε α : Type} [DecidableEq ε] [DecidableEq α] :
    DecidableEq (Except ε α) := fun
  | Except.error e₁, Except.error e₂ =>
    if h : e₁ = e₂ then Decidable.isTrue (by rw [h])
    else Decidable.isFalse (by simp [h])
  | Except.error _, Except.ok _ => Decidable.isFalse (by simp)
  | Except.ok _, Except.error _ => Decidable.isFalse (by simp)
  | Except.ok a₁, Except.ok a₂ =>
    if h : a₁ = a₂ then Decidable.isTrue (by rw [h])
    else Decidable.isFalse (by simp [h])

/-- One managed file reference together with the file-system behavior it
exhibits during the build pass. `stat` and `readResult` are `Except` values
carrying the thrown error message; `text` is the UTF-8 decoding of the bytes
(environment-supplied, only consulted when the read succeeds); `ext` is the
lowercased extension extracted by `path.extname(...).substring(1)`. -/
structure FileEntry where
  relativePath : List Char
  ext : List Char
  stat : Except (List Char) FileStat
  readResult : Except (List Char) (List Nat)
  text : List Char
deriving DecidableEq, Repr

/-- `MAX_FILE_SIZE_BYTES = 5 * 1024 * 1024`. -/
def MAX_FILE_SIZE_BYTES : Nat := 5 * 1024 * 1024

/-- `APPROX_CHARS_PER_TOKEN = 4`. -/
def APPROX_CHARS_PER_TOKEN : Nat := 4

/-- The static extension-to-language lookup table of `guessLanguageTag`. -/
def langMap : List (List Char × List Char) :=
  [("py".data, "python".data), ("js".data, "javascript".data),
   ("ts".data, "typescript".data), ("java".data, "java".data),
   ("c".data, "c".data), ("cpp".data, "cpp".data), ("cs".data, "csharp".data),
   ("go".data, "go".data), ("rb".data, "ruby".data), ("php".data, "php".data),
   ("swift".data, "swift".data), ("kt".data, "kotlin".data),
   ("rs".data, "rust".data), ("html".data, "html".data),
   ("css".data, "css".data), ("scss".data, "scss".data),
   ("less".data, "less".data), ("json".data, "json".data),
   ("yaml".data, "yaml".data), ("yml".data, "yaml".data),
   ("xml".data, "xml".data), ("sh".data, "bash".data),
   ("bash".data, "bash".data), ("zsh".data, "bash".data),
   ("ps1".data, "powershell".data), ("md".data, "markdown".data),
   ("txt".data, "text".data), ("sql".data, "sql".data),
   ("dockerfile".data, "dockerfile".data), ("makefile".data, "makefile".data),
   ("gradle".data, "gradle".data), ("groovy".data, "groovy".data),
   ("lua".data, "lua".data), ("perl".data, "perl".data), ("r".data, "r".data),
   ("scala".data, "scala".data), ("dart".data, "dart".data),
   ("vue".data, "vue".data)]

/-- Embeds `guessLanguageTag` (the extension extraction itself is the `ext`
field of the entry): `langMap[extension] || ''`. -/
def guessLanguageTag (ext : List Char) : List Char :=
  (langMap.lookup ext).getD []

/-- Renders one included file exactly as the loop body does:
optional path header, opening fence with language tag, trimmed content,
closing fence plus blank-line separator. -/
def renderFile (includePaths : Bool) (f : FileEntry) : List Char :=
  let pathHeader :=
    if includePaths then "--- File: ".data ++ f.relativePath ++ " ---\n".data
    else []
  let codeBlockHeader := "```".data ++ guessLanguageTag f.ext ++ "\n".data
  let codeBlockFooter := "\n```\n\n".data
  pathHeader ++ codeBlockHeader ++ trimChars f.text ++ codeBlockFooter

/-- What the per-file iteration does with one entry. -/
inductive FileOutcome
  | included (rendered : List Char)
  | skipped (reason : List Char)
deriving DecidableEq, Repr

/-- Embeds the per-file branch structure of
`buildContextStringFromManagedFiles` (stat checks in source order, NUL-byte
binary check, catch-all read-error skip). -/
def classifyFile (includePaths : Bool) (f : FileEntry) : FileOutcome :=
  match f.stat with
  | Except.error msg =>
    FileOutcome.skipped
      (f.relativePath ++ " (Read error: ".data ++ msg ++ ")".data)
  | Except.ok st =>
    if st.ftype ≠ VFileType.file then
      FileOutcome.skipped (f.relativePath ++ " (Not a file)".data)
    else if st.size = 0 then
      FileOutcome.skipped (f.relativePath ++ " (Empty file)".data)
    else if st.size > MAX_FILE_SIZE_BYTES then
      FileOutcome.skipped
        (f.relativePath ++ " (Too large > ".data ++
          natToChars (MAX_FILE_SIZE_BYTES / 1024 / 1024) ++ "MB)".data)
    else
      match f.readResult with
      | Except.error msg =>
        FileOutcome.skipped
          (f.relativePath ++ " (Read error: ".data ++ msg ++ ")".data)
      | Except.ok bytes =>
        if bytes.contains 0 then
          FileOutcome.skipped (f.relativePath ++ " (Likely binary)".data)
        else FileOutcome.included (renderFile includePaths f)

/-- The skip reason the pass records for an entry, when it records one. -/
def skipReasonOf (includePaths : Bool) (f : FileEntry) : Option (List Char) :=
  match classifyFile includePaths f with
  | FileOutcome.skipped r => some r
  | FileOutcome.included _ => none

/-- The rendered block the pass appends for an entry, when it appends one. -/
def includedPart (includePaths : Bool) (f : FileEntry) : Option (List Char) :=
  match classifyFile includePaths f with
  | FileOutcome.included r => some r
  | FileOutcome.skipped _ => none

/-- Decides whether an entry passes every filter of the loop. -/
def isValidEntry (f : FileEntry) : Bool :=
  match f.stat, f.readResult with
  | Except.ok st, Except.ok bytes =>
    decide (st.ftype = VFileType.file ∧ st.size ≠ 0 ∧
      st.size ≤ MAX_FILE_SIZE_BYTES ∧ bytes.contains 0 = false)
  | _, _ => false

/-- The loop accumulator of `buildContextStringFromManagedFiles`. -/
structure BuildAccum where
  context : List Char
  charCount : Nat
  fileCount : Nat
  skipped : List (List Char)
deriving DecidableEq, Repr

/-- One iteration of the build loop. -/
def buildStep (includePaths : Bool) (acc : BuildAccum) (f : FileEntry) :
    BuildAccum :=
  match classifyFile includePaths f with
  | FileOutcome.skipped r => { acc with skipped := acc.skipped ++ [r] }
  | FileOutcome.included rendered =>
    { context := acc.context ++ rendered,
      charCount := acc.charCount + rendered.length,
      fileCount := acc.fileCount + 1,
      skipped := acc.skipped }

/-- The value returned by `buildContextStringFromManagedFiles`. -/
structure BuildResult where
  context : List Char
  fileCount : Nat
  charCount : Nat
  estimatedTokens : Nat
  skippedFiles : List (List Char)
deriving DecidableEq, Repr

/-- Embeds `buildContextStringFromManagedFiles`: run the loop, trim the
trailing whitespace of the accumulated blob, and estimate tokens as
`Math.ceil(finalContext.length / APPROX_CHARS_PER_TOKEN)`. -/
def buildContextStringFromManagedFiles (includePaths : Bool)
    (files : List FileEntry) : BuildResult :=
  let acc := files.foldl (buildStep includePaths)
    { context := [], charCount := 0, fileCount := 0, skipped := [] }
  let finalContext := trimEndChars acc.context
  { context := finalContext,
    fileCount := acc.fileCount,
    charCount := acc.charCount,
    estimatedTokens :=
      (finalContext.length + (APPROX_CHARS_PER_TOKEN - 1)) /
        APPROX_CHARS_PER_TOKEN,
    skippedFiles := acc.skipped }

/-- The sublist of entries that pass every filter. -/
def includedFiles (files : List FileEntry) : List FileEntry :=
  files.filter (fun f => isValidEntry f)

/-- Concatenation of a list of character lists. -/
def joinAll : List (List Char) → List Char
  | [] => []
  | x :: xs => x ++ joinAll xs

/-! ## Size estimator (src/chatViewProvider.ts `confirmLargeContextLocally`,
src/contextManager.ts `getContextSizeLimit`) -/

/-- Observable effects of one `confirmLargeContextLocally` call: whether a
modal dialog was shown, whether the model limit was fetched (a potential
network call), and the returned boolean. -/
structure ConfirmOutcome where
  prompted : Bool
  fetchedLimit : Bool
  proceed : Bool
deriving DecidableEq, Repr

/-- Embeds `confirmLargeContextLocally`: below or at the threshold it
returns true immediately; above it, it fetches the limit, shows the modal
warning, and proceeds only on the explicit 'Proceed' choice (`userChoice` is
`none` when the dialog is dismissed). The message text fetched into the
dialog does not influence the result and is not modelled. -/
def confirmLargeContextLocally (charCount threshold : Nat)
    (userChoice : Option String) : ConfirmOutcome :=
  if charCount ≤ threshold then
    { prompted := false, fetchedLimit := false, proceed := true }
  else
    { prompted := true, fetchedLimit := true,
      proceed := userChoice == some "Proceed" }

/-- `FALLBACK_CONTEXT_SIZE_TOKENS = 128 * 1024`. -/
def FALLBACK_CONTEXT_SIZE_TOKENS : Int := 128 * 1024

/-- Outcome of `this._lollmsClient.getModelInfo(defaultBinding)`:
the call throws, or yields no usable numeric `context_size`
(null model info, missing or non-numeric field), or yields a number. -/
inductive ModelInfoResult
  | fetchError
  | noInfo
  | info (contextSize : Int)
deriving DecidableEq, Repr

/-- Embeds `getContextSizeLimit` as a function of the cache, the configured
default binding, the client availability, and the backend query outcome.
Returns the value handed to the caller together with the cache contents
after the call. -/
def getContextSizeLimit (cached : Option Int) (defaultBinding : Option String)
    (clientAvailable : Bool) (fetch : ModelInfoResult) : Int × Option Int :=
  match cached with
  | some v => (v, some v)
  | none =>
    match defaultBinding with
    | none => (FALLBACK_CONTEXT_SIZE_TOKENS, some FALLBACK_CONTEXT_SIZE_TOKENS)
    | some _ =>
      if !clientAvailable then
        (FALLBACK_CONTEXT_SIZE_TOKENS, some FALLBACK_CONTEXT_SIZE_TOKENS)
      else
        match fetch with
        | ModelInfoResult.fetchError =>
          (FALLBACK_CONTEXT_SIZE_TOKENS, some FALLBACK_CONTEXT_SIZE_TOKENS)
        | ModelInfoResult.noInfo =>
          (FALLBACK_CONTEXT_SIZE_TOKENS, some FALLBACK_CONTEXT_SIZE_TOKENS)
        | ModelInfoResult.info cs =>
          if cs > 0 then (cs, some cs)
          else
            (FALLBACK_CONTEXT_SIZE_TOKENS, some FALLBACK_CONTEXT_SIZE_TOKENS)

/-! ## Client lifecycle (src/extension.ts `ensureClient`,
src/contextManager.ts `setClient`) -/

/-- A `LollmsClient` object; `ref` models JS object identity (each `new
LollmsClient(...)` yields a fresh reference). -/
structure ClientRec where
  ref : Nat
  baseUrl : String
  apiKey : String
deriving DecidableEq, Repr

/-- The module-level state touched by `ensureClient`: the extension's client
singleton, the context manager's client field and its cached context-size
limit, plus an allocation counter for fresh object references. -/
structure ExtensionState where
  lollmsClient : Option ClientRec
  cmClient : Option ClientRec
  cmCachedLimit : Option Int
  nextRef : Nat
deriving DecidableEq, Repr

/-- Embeds `ContextManager.setClient`: when the incoming client differs from
the stored one, store it and invalidate the cached context-size limit. -/
def setClient (cmClient : Option ClientRec) (cache : Option Int)
    (client : Option ClientRec) : Option ClientRec × Option Int :=
  if cmClient ≠ client then (client, none) else (cmClient, cache)

/-- Embeds `ensureClient` (src/extension.ts lines 22-53): with invalid
configuration the client is dropped; with a missing client or a changed
server URL / API key a fresh client is constructed, handed to the context
manager, and the cached limit is explicitly cleared. Returns the new state
and the client handed back to the caller. -/
def ensureClient (s : ExtensionState) (configValid : Bool)
    (serverUrl apiKey : String) : ExtensionState × Option ClientRec :=
  if !configValid then
    match s.lollmsClient with
    | some _ =>
      let (cm, cache) := setClient s.cmClient s.cmCachedLimit none
      ({ s with lollmsClient := none, cmClient := cm, cmCachedLimit := cache },
       none)
    | none => (s, none)
  else
    let stale :=
      match s.lollmsClient with
      | none => true
      | some c => c.baseUrl != serverUrl || c.apiKey != apiKey
    if stale then
      let newClient : ClientRec :=
        { ref := s.nextRef, baseUrl := serverUrl, apiKey := apiKey }
      let (cm, _) := setClient s.cmClient s.cmCachedLimit (some newClient)
      ({ lollmsClient := some newClient, cmClient := cm,
         cmCachedLimit := none, nextRef := s.nextRef + 1 },
       some newClient)
    else (s, s.lollmsClient)

/-! ## Prompt builder (src/chatViewProvider.ts `buildChatPayload`) -/

/-- A `LollmsInputDataItem` (`type`, `role`, `data`). -/
structure InputItem where
  itemType : String
  role : String
  data : String
deriving DecidableEq, Repr

/-- A `LollmsGeneratePayload` restricted to the fields `buildChatPayload`
sets. -/
structure GenPayload where
  input_data : List InputItem
  generation_type : String
deriving DecidableEq, Repr

/-- Embeds `buildChatPayload`: pushes the system prompt opener, the context
item when the context string is non-empty (JS truthiness), the system
prompt closer, then one item per history turn in order, skipping system
turns. `sysOpen`/`sysClose` stand for the configured context prompt
wrapper strings. -/
def buildChatPayload (sysOpen sysClose : String) (formattedContext : String)
    (history : List ChatMessage) : GenPayload :=
  let l0 : List InputItem := [{ itemType := "text", role := "system_prompt",
                                data := sysOpen }]
  let l1 :=
    if formattedContext ≠ "" then
      l0 ++ [{ itemType := "text", role := "system_context",
               data := formattedContext }]
    else l0
  let l2 := l1 ++ [{ itemType := "text", role := "system_prompt",
                     data := sysClose }]
  let l3 := history.foldl
    (fun acc msg =>
      match msg.sender with
      | Sender.user =>
        acc ++ [{ itemType := "text", role := "user_prompt",
                  data := msg.content }]
      | Sender.assistant =>
        acc ++ [{ itemType := "text", role := "assistant_reply",
                  data := msg.content }]
      | Sender.system => acc)
    l2
  { input_data := l3, generation_type := "ttt" }

/-- The item a single history message contributes, following the wording of
the specification (user turns tagged user_prompt, assistant turns tagged
assistant_reply, system turns excluded); used to state the claim about
`buildChatPayload`. -/
def specHistoryItem (msg : ChatMessage) : Option InputItem :=
  match msg.sender with
  | Sender.user =>
    some { itemType := "text", role := "user_prompt", data := msg.content }
  | Sender.assistant =>
    some { itemType := "text", role := "assistant_reply", data := msg.content }
  | Sender.system => none

/-! ## ContextFileSet membership (src/contextManager.ts `addUri`/`removeUri`)

The JS `Set<string>` of URI strings is modelled as an insertion-ordered list
without duplicates. -/

/-- Embeds `addUri`: no-op returning false when the URI string is already
present, otherwise insert and return true. -/
def addUri (uris : List String) (u : String) : List String × Bool :=
  if u ∈ uris then (uris, false) else (uris ++ [u], true)

/-- Embeds `removeUri`: delete and return true when present, otherwise
no-op returning false. -/
def removeUri (uris : List String) (u : String) : List String × Bool :=
  if u ∈ uris then (uris.erase u, true) else (uris, false)

/-! ## Concrete states used to instantiate the theorems -/

/-- A provider state with a generation in flight and one active discussion
holding a single user message. -/
def busyState : ProviderState :=
  { isGenerating := true, hasClient := true,
    activeDiscussionId := some "d1",
    discussions := [("d1",
      { id := "d1", title := "t", createdAt := 0,
        messages := [{ sender := Sender.user, content := "hi",
                       kind := MsgKind.text, timestamp := 1 }] })] }

/-- A 120-character Python file (the scenario of the specification): regular
file, 120 bytes, no NUL byte, content 120 letters with no surrounding
whitespace. -/
def pyFile120 : FileEntry :=
  { relativePath := "foo.py".data, ext := "py".data,
    stat := Except.ok { ftype := VFileType.file, size := 120 },
    readResult := Except.ok (List.replicate 120 97),
    text := List.replicate 120 'a' }

/-- An empty file (skipped with reason "(Empty file)"). -/
def emptyFile : FileEntry :=
  { relativePath := "empty.txt".data, ext := "txt".data,
    stat := Except.ok { ftype := VFileType.file, size := 0 },
    readResult := Except.ok [], text := [] }

/-- A 6 MiB file (skipped with the too-large reason). -/
def bigFile : FileEntry :=
  { relativePath := "big.bin".data, ext := "bin".data,
    stat := Except.ok { ftype := VFileType.file, size := 6 * 1024 * 1024 },
    readResult := Except.ok [], text := [] }

/-- A binary file containing a NUL byte. -/
def binFile : FileEntry :=
  { relativePath := "img.dat".data, ext := "dat".data,
    stat := Except.ok { ftype := VFileType.file, size := 3 },
    readResult := Except.ok [1, 0, 2], text := [] }

/-- A file whose read throws. -/
def unreadableFile : FileEntry :=
  { relativePath := "locked.txt".data, ext := "txt".data,
    stat := Except.ok { ftype := VFileType.file, size := 4 },
    readResult := Except.error "EACCES".data, text := [] }

/-- A small valid text file. -/
def okFile : FileEntry :=
  { relativePath := "a.txt".data, ext := "txt".data,
    stat := Except.ok { ftype := VFileType.file, size := 2 },
    readResult := Except.ok [104, 105], text := "hi".data }

/-- A wall-clock instant (2024-01-15 10:30:45.123; `month := 0` is January
in JS `getMonth()` convention). -/
def rapidDate : JsDate :=
  { year := 2024, month := 0, day := 15, hour := 10, minute := 30,
    second := 45, ms := 123 }

/-- The same instant one millisecond later. -/
def rapidDateNext : JsDate :=
  { year := 2024, month := 0, day := 15, hour := 10, minute := 30,
    second := 45, ms := 124 }

/-- First `startNewDiscussion` call on an empty store at `rapidDate`. -/
def rapidFirst : List (String × Discussion) × String :=
  startNewDiscussionModel [] rapidDate 100 "loc"

/-- The store after a user message lands in the newly created discussion. -/
def rapidMid : List (String × Discussion) :=
  assocSet rapidFirst.1 rapidFirst.2
    { id := rapidFirst.2, title := "t", createdAt := 100,
      messages := [mkTestMsg 7] }

/-- Second `startNewDiscussion` call within the same millisecond. -/
def rapidSecond : List (String × Discussion) × String :=
  startNewDiscussionModel rapidMid rapidDate 101 "loc"

/-! # Theorems -/

/-! ## Shared helper lemmas -/

theorem assocFind_assocSet_self {β : Type} (m : List (String × β)) (k : String)
    (v : β) : assocFind (assocSet m k v) k = some v := by
  induction m with
  | nil => simp [assocSet, assocFind]
  | cons p rest ih =>
    obtain ⟨k₀, v₀⟩ := p
    by_cases h : k₀ = k
    · simp [assocSet, assocFind, h]
    · simp [assocSet, assocFind, h, ih]

theorem assocFind_assocSet_ne {β : Type} (m : List (String × β)) (k k' : String)
    (v : β) (h : k' ≠ k) :
    assocFind (assocSet m k v) k' = assocFind m k' := by
  induction m with
  | nil =>
    simp only [assocSet, assocFind]
    rw [if_neg (fun hh => h hh.symm)]
  | cons p rest ih =>
    obtain ⟨k₀, v₀⟩ := p
    by_cases hk : k₀ = k
    · simp only [assocSet, assocFind, if_pos hk]
      rw [if_neg (fun hh => h hh.symm), if_neg (fun hh => h (hk ▸ hh).symm)]
    · simp only [assocSet, assocFind, if_neg hk]
      by_cases hk' : k₀ = k'
      · rw [if_pos hk', if_pos hk']
      · rw [if_neg hk', if_neg hk', ih]

theorem addMessageToActive_isGenerating (s : ProviderState) (m : ChatMessage) :
    (addMessageToActive s m).isGenerating = s.isGenerating := by
  cases hact : s.activeDiscussionId with
  | none => simp only [addMessageToActive, hact]
  | some did =>
    cases hfind : assocFind s.discussions did with
    | none => simp only [addMessageToActive, hact, hfind]
    | some d => simp only [addMessageToActive, hact, hfind]

theorem addMessageToActive_activeId (s : ProviderState) (m : ChatMessage) :
    (addMessageToActive s m).activeDiscussionId = s.activeDiscussionId := by
  cases hact : s.activeDiscussionId with
  | none => simp only [addMessageToActive, hact]
  | some did =>
    cases hfind : assocFind s.discussions did with
    | none => simp only [addMessageToActive, hact, hfind]
    | some d => simp only [addMessageToActive, hact, hfind]

theorem addMessageToActive_find_ne (s : ProviderState) (m : ChatMessage)
    (k : String) (h : s.activeDiscussionId ≠ some k) :
    assocFind (addMessageToActive s m).discussions k
      = assocFind s.discussions k := by
  cases hact : s.activeDiscussionId with
  | none => simp only [addMessageToActive, hact]
  | some did =>
    cases hfind : assocFind s.discussions did with
    | none => simp only [addMessageToActive, hact, hfind]
    | some d =>
      have hne : k ≠ did := by
        intro hk
        exact h (by rw [hact, hk])
      simp only [addMessageToActive, hact, hfind]
      exact assocFind_assocSet_ne _ _ _ _ hne

theorem addMessageToActive_find_active (s : ProviderState) (m : ChatMessage)
    (k : String) (d : Discussion) (hk : s.activeDiscussionId = some k)
    (hd : assocFind s.discussions k = some d) :
    assocFind (addMessageToActive s m).discussions k
      = some { d with messages := addMessageToHistory d.messages m } := by
  simp only [addMessageToActive, hk, hd]
  exact assocFind_assocSet_self _ _ _

theorem foldl_push_filterMap (history : List ChatMessage)
    (init : List InputItem) :
    List.foldl
      (fun acc msg =>
        match msg.sender with
        | Sender.user =>
          acc ++ [{ itemType := "text", role := "user_prompt",
                    data := msg.content }]
        | Sender.assistant =>
          acc ++ [{ itemType := "text", role := "assistant_reply",
                    data := msg.content }]
        | Sender.system => acc)
      init history
    = init ++ history.filterMap specHistoryItem := by
  induction history generalizing init with
  | nil => simp
  | cons msg rest ih =>
    cases h : msg.sender <;>
      simp [List.foldl_cons, List.filterMap_cons, specHistoryItem, h, ih,
        List.append_assoc]

/-! ## Claim C9: idempotence of ContextFileSet membership operations -/

/-- C9: adding an already-present file reference leaves the set unchanged
and returns false; removing an absent reference leaves the set unchanged
and returns false; adding the same reference twice leaves the set exactly
as after the first add, with the second call reporting false. -/
theorem claim_C9_theorem (uris : List String) (u : String) :
    (u ∈ uris → addUri uris u = (uris, false))
    ∧ (u ∉ uris → removeUri uris u = (uris, false))
    ∧ addUri (addUri uris u).1 u = ((addUri uris u).1, false) := by
  refine ⟨fun h => ?_, fun h => ?_, ?_⟩
  · simp [addUri, h]
  · simp [removeUri, h]
  · by_cases h : u ∈ uris
    · simp [addUri, h]
    · simp [addUri, h]

/-- Witness: the theorem applied to a concrete one-element set. -/
theorem claim_C9_witness :
    addUri ["file:///a.py"] "file:///a.py" = (["file:///a.py"], false)
    ∧ removeUri ["file:///a.py"] "file:///b.py" = (["file:///a.py"], false) :=
  ⟨( claim_C9_theorem ["file:///a.py"] "file:///a.py").1 (by decide),
   ( claim_C9_theorem ["file:///a.py"] "file:///b.py").2.1 (by decide)⟩

/-! ## Claim C6: the size-confirmation gate -/

/-- C6: at or below the threshold `confirmLargeContextLocally` returns true
with no prompt and no limit fetch; above it, it prompts (after fetching the
limit) and proceeds exactly on the explicit 'Proceed' answer; in particular
charCount 100000 against threshold 100000 passes silently and 100001
prompts. -/
theorem claim_C6_theorem (charCount threshold : Nat)
    (userChoice : Option String) :
    (charCount ≤ threshold →
      confirmLargeContextLocally charCount threshold userChoice
        = { prompted := false, fetchedLimit := false, proceed := true })
    ∧ (charCount > threshold →
        (confirmLargeContextLocally charCount threshold userChoice).prompted
            = true
        ∧ ((confirmLargeContextLocally charCount threshold
              userChoice).proceed = true
            ↔ userChoice = some "Proceed"))
    ∧ confirmLargeContextLocally 100000 100000 userChoice
        = { prompted := false, fetchedLimit := false, proceed := true }
    ∧ (confirmLargeContextLocally 100001 100000 userChoice).prompted = true := by
  refine ⟨fun h => ?_, fun h => ?_, ?_, ?_⟩
  · simp [confirmLargeContextLocally, h]
  · have h' : ¬ charCount ≤ threshold := by omega
    simp [confirmLargeContextLocally, h']
  · simp [confirmLargeContextLocally]
  · simp [confirmLargeContextLocally]

/-- Witness: both branches of the gate at the boundary values. -/
theorem claim_C6_witness :
    confirmLargeContextLocally 100000 100000 none
      = { prompted := false, fetchedLimit := false, proceed := true }
    ∧ (confirmLargeContextLocally 100001 100000 (some "Cancel")).proceed
        = false :=
  ⟨(claim_C6_theorem 100000 100000 none).1 (by decide),
   by
     have h := ((claim_C6_theorem 100001 100000 (some "Cancel")).2.1
       (by decide)).2
     simp at h
     simp [h]⟩

/-! ## Claim C7: the context-size-limit fetch with caching -/

/-- C7: `getContextSizeLimit` returns any cached value unchanged; with no
cache it caches and returns the fallback 131072 when no default binding is
configured, or the client is unavailable, or the query fails or yields no
usable positive size; it caches and returns the backend integer when that
integer is positive; and in every case the returned value is the cached
value. -/
theorem claim_C7_theorem (cached : Option Int) (defaultBinding : Option String)
    (clientAvailable : Bool) (fetch : ModelInfoResult) :
    (∀ v, cached = some v →
      getContextSizeLimit cached defaultBinding clientAvailable fetch
        = (v, some v))
    ∧ (cached = none → defaultBinding = none →
        getContextSizeLimit cached defaultBinding clientAvailable fetch
          = (131072, some 131072))
    ∧ (cached = none → clientAvailable = false →
        getContextSizeLimit cached defaultBinding clientAvailable fetch
          = (131072, some 131072))
    ∧ (cached = none →
        (fetch = ModelInfoResult.fetchError ∨ fetch = ModelInfoResult.noInfo) →
        getContextSizeLimit cached defaultBinding clientAvailable fetch
          = (131072, some 131072))
    ∧ (∀ cs, cached = none → fetch = ModelInfoResult.info cs → cs ≤ 0 →
        getContextSizeLimit cached defaultBinding clientAvailable fetch
          = (131072, some 131072))
    ∧ (∀ cs b, cached = none → defaultBinding = some b →
        clientAvailable = true → fetch = ModelInfoResult.info cs → 0 < cs →
        getContextSizeLimit cached defaultBinding clientAvailable fetch
          = (cs, some cs))
    ∧ (getContextSizeLimit cached defaultBinding clientAvailable fetch).2
        = some
          (getContextSizeLimit cached defaultBinding clientAvailable fetch).1
    ∧ FALLBACK_CONTEXT_SIZE_TOKENS = 131072 := by
  have hfb : FALLBACK_CONTEXT_SIZE_TOKENS = 131072 := by decide
  refine ⟨fun v hv => ?_, fun hc hb => ?_, fun hc hcl => ?_, fun hc hf => ?_,
    fun cs hc hf hcs => ?_, fun cs b hc hb hcl hf hcs => ?_, ?_, hfb⟩
  · simp [getContextSizeLimit, hv]
  · simp [getContextSizeLimit, hc, hb, hfb]
  · cases defaultBinding <;> simp [getContextSizeLimit, hc, hcl, hfb]
  · subst hc
    cases defaultBinding <;> cases clientAvailable <;>
      rcases hf with h | h <;> subst h <;> simp [getContextSizeLimit, hfb]
  · subst hc
    subst hf
    have hcs' : ¬ 0 < cs := by omega
    cases defaultBinding <;> cases clientAvailable <;>
      simp [getContextSizeLimit, hfb, hcs']
  · subst hc
    subst hf
    subst hb
    subst hcl
    simp [getContextSizeLimit, hcs]
  · cases cached with
    | some v => simp [getContextSizeLimit]
    | none =>
      cases defaultBinding with
      | none => simp [getContextSizeLimit]
      | some b =>
        cases clientAvailable with
        | false => simp [getContextSizeLimit]
        | true =>
          cases fetch with
          | fetchError => simp [getContextSizeLimit]
          | noInfo => simp [getContextSizeLimit]
          | info cs =>
            by_cases hcs : 0 < cs <;> simp [getContextSizeLimit, hcs]

/-- Witness: the cached path and the positive-fetch path at concrete
values. -/
theorem claim_C7_witness :
    getContextSizeLimit (some 4096) (some "b1") true
        (ModelInfoResult.info 8192) = (4096, some 4096)
    ∧ getContextSizeLimit none (some "b1") true (ModelInfoResult.info 8192)
        = (8192, some 8192) :=
  ⟨(claim_C7_theorem (some 4096) (some "b1") true
      (ModelInfoResult.info 8192)).1 4096 rfl,
   (claim_C7_theorem none (some "b1") true
      (ModelInfoResult.info 8192)).2.2.2.2.2.1 8192 "b1" rfl rfl rfl rfl
      (by decide)⟩

/-! ## Claim C8: reconfiguration invalidates the cached context-size limit -/

/-- C8: when the configured server URL or API key differs from the current
client's, `ensureClient` rebuilds the client and clears the context
manager's cached limit, so the next `getContextSizeLimit` call behaves
exactly like a fresh fetch instead of serving the stale cached integer. -/
theorem claim_C8_theorem (s : ExtensionState) (serverUrl apiKey : String)
    (c : ClientRec) (v : Int)
    (hc : s.lollmsClient = some c)
    (hcache : s.cmCachedLimit = some v)
    (hchange : c.baseUrl ≠ serverUrl ∨ c.apiKey ≠ apiKey) :
    (ensureClient s true serverUrl apiKey).1.cmCachedLimit = none
    ∧ ∀ (binding : Option String) (avail : Bool) (fetch : ModelInfoResult),
        getContextSizeLimit
            (ensureClient s true serverUrl apiKey).1.cmCachedLimit
            binding avail fetch
          = getContextSizeLimit none binding avail fetch := by
  have hstale :
      (match s.lollmsClient with
       | none => true
       | some c => c.baseUrl != serverUrl || c.apiKey != apiKey) = true := by
    rw [hc]
    rcases hchange with h | h <;> simp [h]
  have hmain : (ensureClient s true serverUrl apiKey).1.cmCachedLimit = none := by
    unfold ensureClient
    simp only [Bool.not_true, Bool.false_eq_true, if_false, hstale, if_true]
  exact ⟨hmain, fun binding avail fetch => by rw [hmain]⟩

/-- Witness: a cached limit of 4096 is dropped when the URL changes, and
the follow-up call fetches 8192 from the backend. -/
theorem claim_C8_witness :
    (ensureClient
        { lollmsClient := some { ref := 0, baseUrl := "http://a", apiKey := "k" },
          cmClient := some { ref := 0, baseUrl := "http://a", apiKey := "k" },
          cmCachedLimit := some 4096, nextRef := 1 }
        true "http://b" "k").1.cmCachedLimit = none :=
  (claim_C8_theorem
    { lollmsClient := some { ref := 0, baseUrl := "http://a", apiKey := "k" },
      cmClient := some { ref := 0, baseUrl := "http://a", apiKey := "k" },
      cmCachedLimit := some 4096, nextRef := 1 }
    "http://b" "k" { ref := 0, baseUrl := "http://a", apiKey := "k" } 4096
    rfl rfl (Or.inl (by decide))).1

/-! ## Claim C10: the chat payload structure -/

/-- C10: for every context string and history, the payload's input_data is
exactly the system opener, then the context item when the context is
non-empty, then the system closer, then one item per history turn in
chronological order (user turns tagged user_prompt, assistant turns tagged
assistant_reply, system turns excluded), and the generation type is the
text-generation mode 'ttt'. -/
theorem claim_C10_theorem (sysOpen sysClose formattedContext : String)
    (history : List ChatMessage) :
    (buildChatPayload sysOpen sysClose formattedContext history).input_data
      = { itemType := "text", role := "system_prompt", data := sysOpen }
        :: ((if formattedContext ≠ "" then
              [{ itemType := "text", role := "system_context",
                 data := formattedContext }]
            else [])
          ++ { itemType := "text", role := "system_prompt", data := sysClose }
            :: history.filterMap specHistoryItem)
    ∧ (buildChatPayload sysOpen sysClose formattedContext
        history).generation_type = "ttt" := by
  constructor
  · simp only [buildChatPayload, foldl_push_filterMap]
    by_cases hctx : formattedContext = ""
    · simp [hctx]
    · simp [hctx]
  · rfl

/-! ## Claim C1: the message-history cap -/

/-- C1 counterexample: appending 201 messages to a fresh Discussion leaves
201 messages (not 200), and message #1 (`mkTestMsg 0`) is still first —
`_addMessageToHistory` tests `length > 200` before the push, so eviction
only begins on the 202nd append. -/
theorem claim_C1_counterexample :
    (appendAll [] (msgsN 201)).length = 201
    ∧ (appendAll [] (msgsN 201)).head? = some (mkTestMsg 0)
    ∧ ¬ (appendAll [] (msgsN 201)).length = 200 := by decide

/-- C1 as amended: the cap is 201 — any append to a history of at most 201
messages leaves at most 201; appending 201 messages to a fresh Discussion
leaves all 201 with message #1 still first, and the 202nd append evicts
message #1, leaving exactly 201 messages with message #2 first. -/
theorem claim_C1_theorem :
    (∀ (msgs : List ChatMessage) (m : ChatMessage),
      msgs.length ≤ 201 → (addMessageToHistory msgs m).length ≤ 201)
    ∧ (appendAll [] (msgsN 201)).length = 201
    ∧ (appendAll [] (msgsN 201)).head? = some (mkTestMsg 0)
    ∧ (appendAll [] (msgsN 202)).length = 201
    ∧ (appendAll [] (msgsN 202)).head? = some (mkTestMsg 1) := by
  refine ⟨?_, by decide, by decide, by decide, by decide⟩
  intro msgs m h
  unfold addMessageToHistory
  split
  · simp only [List.length_append, List.length_tail, List.length_cons,
      List.length_nil]
    omega
  · simp only [List.length_append, List.length_cons, List.length_nil]
    omega

/-- Witness: the bound applied to a concrete full history. -/
theorem claim_C1_witness :
    (addMessageToHistory (msgsN 201) (mkTestMsg 900)).length ≤ 201 :=
  claim_C1_theorem.1 (msgsN 201) (mkTestMsg 900) (by decide)

/-! ## Claim C2: rejection of a second in-flight generation request -/

/-- C2 counterexample, both failure modes of the claim: (1) with a
generation in flight, a second chat send is rejected, but a system message
IS appended to the active Discussion (its history grows from 1 to 2
messages), contradicting 'no message is appended'; (2) with the in-flight
flag set, the `lollms.generateWithContext` command handler — which checks
no in-flight flag — proceeds all the way to the network call instead of
being rejected, contradicting 'rejected before any network call is
made'. -/
theorem claim_C2_counterexample :
    ((handleSendMessageGuard busyState "hello" 5).2 = SendOutcome.rejectedBusy
    ∧ ((assocFind (handleSendMessageGuard busyState "hello" 5).1.discussions
        "d1").map (fun d => d.messages.length)) = some 2)
    ∧ generateWithContextGuard true ["file:///ctx.py"]
        (some "Refactor the classes") true true
        = CtxGenOutcome.networkCall := by decide

/-- C2 as amended: only the chat view checks the in-flight flag. While a
generation is outstanding, a second non-empty chat send request is rejected
before any network call (the guard stops at `rejectedBusy`), the in-flight
flag and the set of discussions other than the active one are untouched,
and exactly one system "Please wait..." error message is appended to the
active Discussion. The `lollms.generateWithContext` command handler,
however, consults no in-flight flag: its outcome is identical whether or
not a generation is outstanding, and with context files, a non-empty
instruction, an available client and a confirmed size it proceeds to a
network call even while the flag is set. -/
theorem claim_C2_theorem (s : ProviderState) (text : String) (ts : Nat)
    (hbusy : s.isGenerating = true)
    (htext : (jsTrim text).data.length ≠ 0) :
    (handleSendMessageGuard s text ts).2 = SendOutcome.rejectedBusy
    ∧ (handleSendMessageGuard s text ts).1.isGenerating = true
    ∧ (handleSendMessageGuard s text ts).1.activeDiscussionId
        = s.activeDiscussionId
    ∧ (∀ k, s.activeDiscussionId ≠ some k →
        assocFind (handleSendMessageGuard s text ts).1.discussions k
          = assocFind s.discussions k)
    ∧ (∀ k d, s.activeDiscussionId = some k →
        assocFind s.discussions k = some d →
        assocFind (handleSendMessageGuard s text ts).1.discussions k
          = some { d with
              messages := addMessageToHistory d.messages (sysMessage "Please wait..." MsgKind.error ts) })
    ∧ (∀ (uris : List String) (instr : Option String)
          (client sizeOk : Bool),
        generateWithContextGuard true uris instr client sizeOk
          = generateWithContextGuard false uris instr client sizeOk)
    ∧ (∀ (uris : List String) (instr : String), uris ≠ [] → instr ≠ "" →
        generateWithContextGuard true uris (some instr) true true
          = CtxGenOutcome.networkCall) := by
  have hguard : handleSendMessageGuard s text ts
      = (addMessageToActive s (sysMessage "Please wait..." MsgKind.error ts),
         SendOutcome.rejectedBusy) := by
    unfold handleSendMessageGuard
    rw [if_neg htext, hbusy, if_pos rfl]
  rw [hguard]
  refine ⟨rfl, ?_, ?_, ?_, ?_, fun uris instr client sizeOk => rfl, ?_⟩
  · rw [addMessageToActive_isGenerating]
    exact hbusy
  · exact addMessageToActive_activeId s _
  · intro k hk
    exact addMessageToActive_find_ne s _ k hk
  · intro k d hk hd
    exact addMessageToActive_find_active s _ k d hk hd
  · intro uris instr huris hinstr
    unfold generateWithContextGuard
    rw [if_neg (by simpa using huris)]
    simp [hinstr]

/-- Witness: the amended statement at the concrete busy state, and the
unguarded command handler reaching the network call while the flag is
set. -/
theorem claim_C2_witness :
    (handleSendMessageGuard busyState "again" 9).2
      = SendOutcome.rejectedBusy
    ∧ generateWithContextGuard true ["file:///ctx.py"] (some "Add docs")
        true true = CtxGenOutcome.networkCall :=
  ⟨(claim_C2_theorem busyState "again" 9 (by decide) (by decide)).1,
   (claim_C2_theorem busyState "again" 9 (by decide)
      (by decide)).2.2.2.2.2.2 ["file:///ctx.py"] "Add docs" (by decide)
      (by decide)⟩

/-! ## Decimal rendering lemmas (for claim C3) -/

theorem natToCharsAux_irrel (n : Nat) :
    ∀ f₁ f₂, n < f₁ → n < f₂ → natToCharsAux f₁ n = natToCharsAux f₂ n := by
  induction n using Nat.strong_induction_on with
  | _ n ih =>
    intro f₁ f₂ h₁ h₂
    cases f₁ with
    | zero => omega
    | succ g₁ =>
      cases f₂ with
      | zero => omega
      | succ g₂ =>
        by_cases h : n < 10
        · simp [natToCharsAux, h]
        · simp only [natToCharsAux, if_neg h]
          rw [ih (n / 10) (by omega) g₁ g₂ (by omega) (by omega)]

theorem natToChars_lt10 {n : Nat} (h : n < 10) :
    natToChars n = [natDigitChar n] := by
  simp [natToChars, natToCharsAux, h]

theorem natToChars_ge10 {n : Nat} (h : 10 ≤ n) :
    natToChars n = natToChars (n / 10) ++ [natDigitChar (n % 10)] := by
  unfold natToChars
  have h1 : natToCharsAux (n + 1) n
      = natToCharsAux n (n / 10) ++ [natDigitChar (n % 10)] := by
    simp [natToCharsAux, Nat.not_lt.mpr h]
  rw [h1, natToCharsAux_irrel (n / 10) n (n / 10 + 1) (by omega) (by omega)]

theorem charsToNatAux_append (a : Nat) (xs ys : List Char) :
    charsToNatAux a (xs ++ ys) = charsToNatAux (charsToNatAux a xs) ys := by
  induction xs generalizing a with
  | nil => rfl
  | cons c cs ih =>
    show charsToNatAux (a * 10 + (c.toNat - 48)) (cs ++ ys) = _
    rw [ih]
    rfl

theorem digit_toNat : ∀ r, r < 10 → (natDigitChar r).toNat = 48 + r := by
  decide

theorem charsToNat_natToChars (n : Nat) :
    ∀ a, charsToNatAux a (natToChars n)
      = a * 10 ^ (natToChars n).length + n := by
  induction n using Nat.strong_induction_on with
  | _ n ih =>
    intro a
    by_cases h : n < 10
    · rw [natToChars_lt10 h]
      have h1 : charsToNatAux a [natDigitChar n]
          = a * 10 + ((natDigitChar n).toNat - 48) := rfl
      rw [h1, digit_toNat n h]
      simp only [List.length_cons, List.length_nil, pow_one]
      omega
    · have h' : 10 ≤ n := by omega
      rw [natToChars_ge10 h', charsToNatAux_append, ih (n / 10) (by omega) a]
      have h1 : ∀ b, charsToNatAux b [natDigitChar (n % 10)]
          = b * 10 + ((natDigitChar (n % 10)).toNat - 48) := fun b => rfl
      rw [h1, digit_toNat (n % 10) (by omega)]
      simp only [List.length_append, List.length_cons, List.length_nil]
      rw [pow_succ, ← mul_assoc]
      generalize a * 10 ^ (natToChars (n / 10)).length = B
      omega

theorem charsToNat0 (n : Nat) : charsToNatAux 0 (natToChars n) = n := by
  have h := charsToNat_natToChars n 0
  simpa using h

theorem natToChars_inj {m n : Nat} (h : natToChars m = natToChars n) :
    m = n := by
  rw [← charsToNat0 m, ← charsToNat0 n, h]

theorem charsToNat0_pad2 (n : Nat) : charsToNatAux 0 (pad2 n) = n := by
  unfold pad2
  by_cases h : n < 10
  · rw [if_pos h]
    have h0 : charsToNatAux 0 ('0' :: natToChars n)
        = charsToNatAux (0 * 10 + ('0'.toNat - 48)) (natToChars n) := rfl
    have h1 : (0 : Nat) * 10 + ('0'.toNat - 48) = 0 := by decide
    rw [h0, h1, charsToNat0]
  · rw [if_neg h, charsToNat0]

theorem charsToNat0_pad3 (n : Nat) : charsToNatAux 0 (pad3 n) = n := by
  unfold pad3
  by_cases h : n < 10
  · rw [if_pos h]
    have h0 : charsToNatAux 0 ('0' :: '0' :: natToChars n)
        = charsToNatAux ((0 * 10 + ('0'.toNat - 48)) * 10 + ('0'.toNat - 48))
            (natToChars n) := rfl
    have h1 : ((0 : Nat) * 10 + ('0'.toNat - 48)) * 10 + ('0'.toNat - 48)
        = 0 := by decide
    rw [h0, h1, charsToNat0]
  · rw [if_neg h]
    by_cases h' : n < 100
    · rw [if_pos h']
      have h0 : charsToNatAux 0 ('0' :: natToChars n)
          = charsToNatAux (0 * 10 + ('0'.toNat - 48)) (natToChars n) := rfl
      have h1 : (0 : Nat) * 10 + ('0'.toNat - 48) = 0 := by decide
      rw [h0, h1, charsToNat0]
    · rw [if_neg h', charsToNat0]

theorem pad2_inj {m n : Nat} (h : pad2 m = pad2 n) : m = n := by
  rw [← charsToNat0_pad2 m, ← charsToNat0_pad2 n, h]

theorem pad3_inj {m n : Nat} (h : pad3 m = pad3 n) : m = n := by
  rw [← charsToNat0_pad3 m, ← charsToNat0_pad3 n, h]

theorem natToChars_length_lt10 {n : Nat} (h : n < 10) :
    (natToChars n).length = 1 := by
  rw [natToChars_lt10 h]
  rfl

theorem natToChars_length_ge10 {n : Nat} (h : 10 ≤ n) :
    (natToChars n).length = (natToChars (n / 10)).length + 1 := by
  rw [natToChars_ge10 h]
  simp

theorem natToChars_length_two {n : Nat} (h1 : 10 ≤ n) (h2 : n ≤ 99) :
    (natToChars n).length = 2 := by
  rw [natToChars_length_ge10 h1, natToChars_length_lt10 (by omega)]

theorem natToChars_length_three {n : Nat} (h1 : 100 ≤ n) (h2 : n ≤ 999) :
    (natToChars n).length = 3 := by
  rw [natToChars_length_ge10 (by omega),
    natToChars_length_two (by omega) (by omega)]

theorem natToChars_length_four {n : Nat} (h1 : 1000 ≤ n) (h2 : n ≤ 9999) :
    (natToChars n).length = 4 := by
  rw [natToChars_length_ge10 (by omega),
    natToChars_length_three (by omega) (by omega)]

theorem pad2_length {n : Nat} (h : n ≤ 99) : (pad2 n).length = 2 := by
  unfold pad2
  by_cases h10 : n < 10
  · simp [h10, natToChars_length_lt10 h10]
  · simp [h10, natToChars_length_two (by omega) h]

theorem pad3_length {n : Nat} (h : n ≤ 999) : (pad3 n).length = 3 := by
  unfold pad3
  by_cases h10 : n < 10
  · simp [h10, natToChars_length_lt10 h10]
  · by_cases h100 : n < 100
    · simp [h10, h100,
        natToChars_length_two (show 10 ≤ n by omega) (show n ≤ 99 by omega)]
    · simp [h10, h100,
        natToChars_length_three (show 100 ≤ n by omega) h]

/-- Identifiers computed by `_generateNewDiscussionId` are injective in the
wall-clock components for dates with four-digit years and in-range fields. -/
theorem generateNewDiscussionId_inj (d₁ d₂ : JsDate)
    (h₁ : validJsDate d₁) (h₂ : validJsDate d₂)
    (h : generateNewDiscussionId d₁ = generateNewDiscussionId d₂) :
    d₁ = d₂ := by
  obtain ⟨hy1a, hy1b, hm1, hd1, hh1, hmi1, hs1, hms1⟩ := h₁
  obtain ⟨hy2a, hy2b, hm2, hd2, hh2, hmi2, hs2, hms2⟩ := h₂
  unfold generateNewDiscussionId at h
  obtain ⟨-, h⟩ := List.append_inj (congrArg String.data h) rfl
  obtain ⟨hY, h⟩ := List.append_inj h
    (by rw [natToChars_length_four hy1a hy1b,
      natToChars_length_four hy2a hy2b])
  obtain ⟨hM, h⟩ := List.append_inj h
    (by rw [pad2_length (by omega), pad2_length (by omega)])
  obtain ⟨hD, h⟩ := List.append_inj h
    (by rw [pad2_length (by omega), pad2_length (by omega)])
  obtain ⟨-, h⟩ := List.append_inj h rfl
  obtain ⟨hH, h⟩ := List.append_inj h
    (by rw [pad2_length (by omega), pad2_length (by omega)])
  obtain ⟨hMi, h⟩ := List.append_inj h
    (by rw [pad2_length (by omega), pad2_length (by omega)])
  obtain ⟨hS, h⟩ := List.append_inj h
    (by rw [pad2_length (by omega), pad2_length (by omega)])
  obtain ⟨-, hMs⟩ := List.append_inj h rfl
  have ey : d₁.year = d₂.year := natToChars_inj hY
  have em : d₁.month = d₂.month := by
    have := pad2_inj hM
    omega
  have ed : d₁.day = d₂.day := pad2_inj hD
  have eh : d₁.hour = d₂.hour := pad2_inj hH
  have emi : d₁.minute = d₂.minute := pad2_inj hMi
  have es : d₁.second = d₂.second := pad2_inj hS
  have ems : d₁.ms = d₂.ms := pad3_inj hMs
  cases d₁
  cases d₂
  simp_all

/-! ## Claim C3: uniqueness of discussion identifiers -/

/-- C3 counterexample: two `startNewDiscussion` calls within the same
wall-clock millisecond return the same identifier, and the second call's
`Map.set` silently replaces the first discussion's record, wiping its
message. -/
theorem claim_C3_counterexample :
    rapidSecond.2 = rapidFirst.2
    ∧ assocFind rapidSecond.1 rapidFirst.2
        = some { id := rapidFirst.2, title := "Discussion from loc",
                 createdAt := 101, messages := [] } := by decide

/-- C3 as amended: identifiers from two `startNewDiscussion` calls are
distinct provided the observed wall-clock times differ in at least one
component (millisecond granularity, year rendered with four digits); a
fresh identifier never disturbs other stored discussion records. Calls in
the same millisecond (see the counterexample) violate the original
claim. -/
theorem claim_C3_theorem (d₁ d₂ : JsDate) (h₁ : validJsDate d₁)
    (h₂ : validJsDate d₂) (hne : d₁ ≠ d₂) :
    generateNewDiscussionId d₁ ≠ generateNewDiscussionId d₂
    ∧ (∀ (m : List (String × Discussion)) (nowMs : Nat) (loc k : String),
        k ≠ generateNewDiscussionId d₁ →
        assocFind (startNewDiscussionModel m d₁ nowMs loc).1 k
          = assocFind m k) := by
  refine ⟨fun h => hne (generateNewDiscussionId_inj d₁ d₂ h₁ h₂ h), ?_⟩
  intro m nowMs loc k hk
  unfold startNewDiscussionModel
  exact assocFind_assocSet_ne _ _ _ _ hk

/-- Witness: two dates one millisecond apart yield distinct identifiers. -/
theorem claim_C3_witness :
    generateNewDiscussionId rapidDate ≠ generateNewDiscussionId rapidDateNext :=
  (claim_C3_theorem rapidDate rapidDateNext (by decide) (by decide)
    (by decide)).1

/-! ## Context assembler lemmas (for claims C4 and C5) -/

theorem includedPart_eq (ip : Bool) (f : FileEntry) :
    includedPart ip f
      = if isValidEntry f = true then some (renderFile ip f) else none := by
  cases hs : f.stat with
  | error msg => simp [includedPart, classifyFile, isValidEntry, hs]
  | ok st =>
    cases hr : f.readResult with
    | error msg =>
      simp only [includedPart, classifyFile, isValidEntry, hs, hr]
      split_ifs <;> simp_all
    | ok bytes =>
      simp only [includedPart, classifyFile, isValidEntry, hs, hr,
        decide_eq_true_eq]
      split_ifs with h1 h2 h3 h4 <;> simp_all <;> omega

theorem skipReasonOf_some_iff (ip : Bool) (f : FileEntry) :
    (∃ r, skipReasonOf ip f = some r) ↔ isValidEntry f = false := by
  have h := includedPart_eq ip f
  cases hc : classifyFile ip f with
  | skipped r =>
    simp only [includedPart, hc] at h
    constructor
    · intro _
      by_contra hv
      simp only [Bool.not_eq_false] at hv
      rw [if_pos hv] at h
      exact Option.noConfusion h
    · intro _
      exact ⟨r, by simp [skipReasonOf, hc]⟩
  | included r =>
    simp only [includedPart, hc] at h
    constructor
    · intro ⟨r', hr'⟩
      simp [skipReasonOf, hc] at hr'
    · intro hv
      rw [hv] at h
      simp at h

theorem build_foldl (ip : Bool) (files : List FileEntry) (acc : BuildAccum) :
    files.foldl (buildStep ip) acc =
      { context := acc.context ++ joinAll (files.filterMap (includedPart ip)),
        charCount := acc.charCount
          + ((files.filterMap (includedPart ip)).map List.length).sum,
        fileCount := acc.fileCount + (files.filterMap (includedPart ip)).length,
        skipped := acc.skipped ++ files.filterMap (skipReasonOf ip) } := by
  induction files generalizing acc with
  | nil => simp [joinAll]
  | cons f fs ih =>
    rw [List.foldl_cons, ih]
    cases hc : classifyFile ip f with
    | skipped r =>
      simp [buildStep, hc, includedPart, skipReasonOf, List.filterMap_cons,
        joinAll, List.append_assoc]
    | included rendered =>
      simp [buildStep, hc, includedPart, skipReasonOf, List.filterMap_cons,
        joinAll, List.append_assoc]
      omega

theorem build_eq (ip : Bool) (files : List FileEntry) :
    buildContextStringFromManagedFiles ip files =
      { context := trimEndChars (joinAll (files.filterMap (includedPart ip))),
        fileCount := (files.filterMap (includedPart ip)).length,
        charCount := ((files.filterMap (includedPart ip)).map List.length).sum,
        estimatedTokens :=
          ((trimEndChars (joinAll (files.filterMap
              (includedPart ip)))).length + (APPROX_CHARS_PER_TOKEN - 1))
            / APPROX_CHARS_PER_TOKEN,
        skippedFiles := files.filterMap (skipReasonOf ip) } := by
  unfold buildContextStringFromManagedFiles
  rw [build_foldl]
  simp

theorem filterMap_included (ip : Bool) (files : List FileEntry) :
    files.filterMap (includedPart ip)
      = (includedFiles files).map (renderFile ip) := by
  induction files with
  | nil => rfl
  | cons f fs ih =>
    rw [List.filterMap_cons, includedPart_eq]
    by_cases hv : isValidEntry f = true
    · simp [hv, includedFiles, List.filter_cons, ih]
    · simp [hv, includedFiles, List.filter_cons, ih]

theorem trimEnd_append_fence (x : List Char) :
    trimEndChars (x ++ "\n```\n\n".data) = x ++ "\n```".data := by
  unfold trimEndChars
  rw [List.reverse_append]
  have h1 : ("\n```\n\n".data).reverse
      = '\n' :: '\n' :: '`' :: '`' :: '`' :: '\n' :: [] := by decide
  rw [h1]
  have hnl : '\n'.isWhitespace = true := by decide
  have hbt : '`'.isWhitespace = false := by decide
  simp [List.dropWhile_cons, hnl, hbt]

/-! ## Claim C4: charCount and estimatedTokens for a single included file -/

/-- C4 counterexample: for the specification's own scenario (one
120-character Python file with path headers), charCount is 157 (the exact
rendered length including the blank-line separator) but estimatedTokens is
39, not ceil(157/4) = 40 — the token estimate is taken over the blob after
its trailing whitespace is trimmed, while charCount is counted before. -/
theorem claim_C4_counterexample :
    (buildContextStringFromManagedFiles true [pyFile120]).charCount = 157
    ∧ (buildContextStringFromManagedFiles true [pyFile120]).estimatedTokens
        = 39
    ∧ ¬ (buildContextStringFromManagedFiles true [pyFile120]).estimatedTokens
        = ((buildContextStringFromManagedFiles true [pyFile120]).charCount + 3)
          / 4 := by decide

/-- C4 as amended: for a build over exactly one included file, charCount is
the exact length of the rendered string (path header, fence with language
tag, trimmed content, closing fence, blank-line separator), and
estimatedTokens equals ceil((charCount - 2) / 4): the ceiling is taken over
the returned blob, whose trailing blank-line separator has been trimmed
away (two characters shorter than charCount). -/
theorem claim_C4_theorem (ip : Bool) (f : FileEntry)
    (h : isValidEntry f = true) :
    (buildContextStringFromManagedFiles ip [f]).charCount
        = (renderFile ip f).length
    ∧ (buildContextStringFromManagedFiles ip [f]).estimatedTokens
        = ((buildContextStringFromManagedFiles ip [f]).charCount - 2
            + (APPROX_CHARS_PER_TOKEN - 1)) / APPROX_CHARS_PER_TOKEN := by
  have hip : List.filterMap (includedPart ip) [f] = [renderFile ip f] := by
    rw [List.filterMap_cons, includedPart_eq, if_pos h]
    rfl
  have hx :
      renderFile ip f
        = ((if ip then "--- File: ".data ++ f.relativePath ++ " ---\n".data
            else []) ++ ("```".data ++ guessLanguageTag f.ext ++ "\n".data)
            ++ trimChars f.text) ++ "\n```\n\n".data := by
    unfold renderFile
    simp [List.append_assoc]
  rw [build_eq, hip]
  constructor
  · simp [joinAll]
  · have l1 : ("\n```".data).length = 4 := rfl
    have l2 : ("\n```\n\n".data).length = 6 := rfl
    simp only [joinAll, List.append_nil, List.map_cons, List.map_nil,
      List.sum_cons, List.sum_nil, Nat.add_zero, APPROX_CHARS_PER_TOKEN]
    rw [hx, trimEnd_append_fence]
    simp only [List.length_append, l1, l2]
    omega

/-- Witness: the amended statement at a concrete small valid file. -/
theorem claim_C4_witness :
    (buildContextStringFromManagedFiles true [okFile]).charCount
      = (renderFile true okFile).length :=
  (claim_C4_theorem true okFile (by decide)).1

/-! ## Claim C5: skip reasons, inclusion, and per-file error recovery -/

/-- C5: the build records exactly one skip reason per excluded file in
input order, includes exactly the valid files (in order) in the rendered
blob, each skip reason matches the file's failure category (stat error,
not a regular file, empty, over the 5 MiB ceiling, read error with
message, NUL byte), and an invalid file anywhere in the input changes
nothing but its own single skip reason: context, counts and token estimate
are those of the input without it. -/
theorem claim_C5_theorem (ip : Bool) (files : List FileEntry) :
    (buildContextStringFromManagedFiles ip files).skippedFiles
        = files.filterMap (skipReasonOf ip)
    ∧ (buildContextStringFromManagedFiles ip files).fileCount
        = (includedFiles files).length
    ∧ (buildContextStringFromManagedFiles ip files).context
        = trimEndChars (joinAll ((includedFiles files).map (renderFile ip)))
    ∧ (∀ (f : FileEntry) (msg : List Char), f.stat = Except.error msg →
        skipReasonOf ip f
          = some (f.relativePath ++ " (Read error: ".data ++ msg ++ ")".data))
    ∧ (∀ (f : FileEntry) (st : FileStat), f.stat = Except.ok st →
        st.ftype ≠ VFileType.file →
        skipReasonOf ip f = some (f.relativePath ++ " (Not a file)".data))
    ∧ (∀ (f : FileEntry) (st : FileStat), f.stat = Except.ok st →
        st.ftype = VFileType.file → st.size = 0 →
        skipReasonOf ip f = some (f.relativePath ++ " (Empty file)".data))
    ∧ (∀ (f : FileEntry) (st : FileStat), f.stat = Except.ok st →
        st.ftype = VFileType.file → st.size ≠ 0 →
        st.size > MAX_FILE_SIZE_BYTES →
        skipReasonOf ip f
          = some (f.relativePath ++ " (Too large > ".data
              ++ natToChars (MAX_FILE_SIZE_BYTES / 1024 / 1024)
              ++ "MB)".data))
    ∧ natToChars (MAX_FILE_SIZE_BYTES / 1024 / 1024) = "5".data
    ∧ (∀ (f : FileEntry) (st : FileStat) (msg : List Char),
        f.stat = Except.ok st → st.ftype = VFileType.file → st.size ≠ 0 →
        ¬ st.size > MAX_FILE_SIZE_BYTES → f.readResult = Except.error msg →
        skipReasonOf ip f
          = some (f.relativePath ++ " (Read error: ".data ++ msg ++ ")".data))
    ∧ (∀ (f : FileEntry) (st : FileStat) (bytes : List Nat),
        f.stat = Except.ok st → st.ftype = VFileType.file → st.size ≠ 0 →
        ¬ st.size > MAX_FILE_SIZE_BYTES → f.readResult = Except.ok bytes →
        bytes.contains 0 = true →
        skipReasonOf ip f
          = some (f.relativePath ++ " (Likely binary)".data))
    ∧ (∀ (as bs : List FileEntry) (g : FileEntry), isValidEntry g = false →
        (buildContextStringFromManagedFiles ip (as ++ g :: bs)).context
            = (buildContextStringFromManagedFiles ip (as ++ bs)).context
        ∧ (buildContextStringFromManagedFiles ip (as ++ g :: bs)).fileCount
            = (buildContextStringFromManagedFiles ip (as ++ bs)).fileCount
        ∧ (buildContextStringFromManagedFiles ip (as ++ g :: bs)).charCount
            = (buildContextStringFromManagedFiles ip (as ++ bs)).charCount
        ∧ (buildContextStringFromManagedFiles ip
              (as ++ g :: bs)).estimatedTokens
            = (buildContextStringFromManagedFiles ip (as ++ bs)).estimatedTokens
        ∧ (buildContextStringFromManagedFiles ip
              (as ++ g :: bs)).skippedFiles.length
            = (buildContextStringFromManagedFiles ip
                (as ++ bs)).skippedFiles.length + 1) := by
  refine ⟨?_, ?_, ?_, ?_, ?_, ?_, ?_, by decide, ?_, ?_, ?_⟩
  · rw [build_eq]
  · rw [build_eq, filterMap_included]
    simp
  · rw [build_eq, filterMap_included]
  · intro f msg hs
    simp [skipReasonOf, classifyFile, hs]
  · intro f st hs hft
    simp [skipReasonOf, classifyFile, hs, hft]
  · intro f st hs hft hsz
    simp [skipReasonOf, classifyFile, hs, hft, hsz]
  · intro f st hs hft hsz hbig
    simp [skipReasonOf, classifyFile, hs, hft, hsz, hbig]
  · intro f st msg hs hft hsz hbig hr
    simp [skipReasonOf, classifyFile, hs, hft, hsz, hbig, hr]
  · intro f st bytes hs hft hsz hbig hr hnul
    have hmem : 0 ∈ bytes := by simpa using hnul
    simp [skipReasonOf, classifyFile, hs, hft, hsz, hbig, hr, hmem]
  · intro as bs g hg
    obtain ⟨r, hr⟩ := (skipReasonOf_some_iff ip g).mpr hg
    have hfm : List.filterMap (includedPart ip) (as ++ g :: bs)
        = List.filterMap (includedPart ip) (as ++ bs) := by
      rw [filterMap_included, filterMap_included]
      simp [includedFiles, List.filter_append, List.filter_cons, hg]
    rw [build_eq ip (as ++ g :: bs), build_eq ip (as ++ bs)]
    refine ⟨by rw [hfm], by rw [hfm], by rw [hfm], by rw [hfm], ?_⟩
    simp only [List.filterMap_append, List.filterMap_cons, hr,
      List.length_append, List.length_cons]
    omega

/-- Witness: the empty-file category and the error-recovery conjunct at the
specification's mixed batch. -/
theorem claim_C5_witness :
    skipReasonOf true emptyFile
      = some ("empty.txt".data ++ " (Empty file)".data)
    ∧ (buildContextStringFromManagedFiles true
          ([emptyFile, bigFile] ++ unreadableFile :: [binFile, okFile])).fileCount
        = (buildContextStringFromManagedFiles true
            ([emptyFile, bigFile] ++ [binFile, okFile])).fileCount :=
  ⟨(claim_C5_theorem true []).2.2.2.2.2.1 emptyFile
      { ftype := VFileType.file, size := 0 } rfl rfl rfl,
   ((claim_C5_theorem true []).2.2.2.2.2.2.2.2.2.2 [emptyFile, bigFile]
      [binFile, okFile] unreadableFile (by decide)).2.1⟩

end LollmsVsc
